import Mathlib

/-!
Shallow embedding of the IoT temperature-reader control program
(`iot_temperature_reader.md`, the MicroPython script saved as `main.py`).

The script is a straight-line program with one bounded connection loop
(`connect`) and one unbounded sampling loop (`run`).  We embed it as pure
functions over explicit environments:

* the Wi-Fi link is a function `polls : Nat → Bool` giving the value of
  `wlan.isconnected()` at each poll;
* each sampling cycle's external world is a `Cycle`: the sensor outcome of
  `sensor.measure()`, the outcome of the `requests.post` call made by
  `send_reading`, and the wall-clock time `round(time())`;
* `ntptime.settime()` is an `Except String Unit` (it can raise);
* the single error-report POST of the top-level handler is a `PostOutcome`.

Side effects on the RGB LED, the network and the sensor are recorded as an
event trace, so frame/effect claims can be stated about what was and was not
driven.  Exceptions are modelled with `Except` / explicit fault constructors;
an uncaught MicroPython exception corresponds to a `faulted`/`reporterFaulted`
result.
-/

namespace IotReader

/-- An RGB colour value as passed to the `picozero` LED.  The script uses
unit triples like `(1, 0, 0)` for blinking and channel writes like
`led.red = 255` for solid colours. -/
structure RGB where
  r : Nat
  g : Nat
  b : Nat
deriving DecidableEq, Repr

/-- One observable action on the RGB LED.
`blink onColor offColor` is `led.blink(colors=(onColor, offColor))`;
`solid c` is a bare channel write such as `led.red = 255` (line 90) or
`indicator.blue = 255` (line 118), which leaves the LED permanently lit;
`off` is `led.off()`. -/
inductive LedAction where
  | blink (onColor offColor : RGB)
  | solid (color : RGB)
  | off
deriving DecidableEq, Repr

/-- The mutually exclusive device states of the spec's data model, matching
the numbered comment block at lines 41–49 of the script (the comment's
"WiFi connection failed" state has no LED action of its own: the script
resets the device, re-entering `Starting`). -/
inductive DeviceState where
  | Starting
  | ConnectingNetwork
  | NetworkConnected
  | ReportingOk
  | ReportingFailed
  | Halted
  | UnexpectedFault
deriving DecidableEq, Repr

/-- The LED action the script drives on entering each state, read off the
call sites: line 100 (`Starting`, blink white), line 51 (`ConnectingNetwork`,
blink blue), line 68 (`NetworkConnected`, `led.off()`), line 93
(`ReportingOk`, blink green), line 87 (`ReportingFailed`, blink red),
line 90 (`Halted`, `led.red = 255`), line 118 (`UnexpectedFault`,
`indicator.blue = 255`).  It is a pure table lookup. -/
def driveIndicator : DeviceState → LedAction
  | .Starting => .blink ⟨1, 1, 1⟩ ⟨0, 0, 0⟩
  | .ConnectingNetwork => .blink ⟨0, 0, 1⟩ ⟨0, 0, 0⟩
  | .NetworkConnected => .off
  | .ReportingOk => .blink ⟨0, 1, 0⟩ ⟨0, 0, 0⟩
  | .ReportingFailed => .blink ⟨1, 0, 0⟩ ⟨0, 0, 0⟩
  | .Halted => .solid ⟨255, 0, 0⟩
  | .UnexpectedFault => .solid ⟨0, 0, 255⟩

/-- An HTTP request as the script builds it with `requests.post`:
a URL, whether an `Authorization` header is attached, and an optional body
(the `data=` argument; `none` when no body is passed). -/
structure HttpRequest where
  url : String
  authorization : Bool
  body : Option String
deriving DecidableEq, Repr

/-- Outcome of one `requests.post` call: either a response with a status
code, or a transport-level fault (the call raises). -/
inductive PostOutcome where
  | status (code : Nat)
  | fault (e : String)
deriving DecidableEq, Repr

/-- Predicate: `PostOutcome.isStatus o` holds when the call returned a
response (did not raise). -/
def PostOutcome.isStatus : PostOutcome → Bool
  | .status _ => true
  | .fault _ => false

/-- Outcome of one `sensor.measure()` call: a (temperature, humidity)
reading, or a raised sensor fault. -/
inductive SensorOutcome where
  | ok (temperature humidity : Int)
  | fault (e : String)
deriving DecidableEq, Repr

/-- Predicate: `SensorOutcome.isOk o` holds when the measurement did not
raise. -/
def SensorOutcome.isOk : SensorOutcome → Bool
  | .ok _ _ => true
  | .fault _ => false

/-- Observable events of one execution: time sync, sensor sampling,
network transmissions (with the exact request built), LED actions, sleeps,
and the `machine.reset()` call. -/
inductive Event where
  | ntpSync
  | sample (temperature humidity : Int)
  | transmit (req : HttpRequest)
  | led (a : LedAction)
  | sleepSec (n : Nat)
  | resetDevice
deriving DecidableEq, Repr

/-- Whether an event is a sensor sampling. -/
def Event.isSample : Event → Bool
  | .sample _ _ => true
  | _ => false

/-- Whether an event is a network transmission. -/
def Event.isTransmit : Event → Bool
  | .transmit _ => true
  | _ => false

/-- The last LED action in a trace, if any. -/
def lastLedAction (tr : List Event) : Option LedAction :=
  tr.foldl (fun acc ev => match ev with | .led a => some a | _ => acc) none

/-! ## Connectivity manager: `connect` (script lines 50–68) -/

/-- Result of `connect`: normal return, or the raised
`WiFiConnectionTimeout`. -/
inductive ConnectOutcome where
  | Connected
  | TimedOut
deriving DecidableEq, Repr

/-- The `while not wlan.isconnected()` loop of `connect` (lines 60–65).
`polls i` is the value of `wlan.isconnected()` at the i-th check
(0-indexed); `attempts` is the script's counter, incremented on each
unsuccessful poll; when it exceeds 10 the script raises
`WiFiConnectionTimeout`.  Returns the outcome together with the final value
of `attempts` (= the number of unsuccessful polls made). -/
def connectLoop (polls : Nat → Bool) (i attempts : Nat) : ConnectOutcome × Nat :=
  if polls i then
    (.Connected, attempts)
  else if attempts + 1 > 10 then
    (.TimedOut, attempts + 1)
  else
    connectLoop polls (i + 1) (attempts + 1)
termination_by 11 - attempts
decreasing_by omega

/-- Embedding of `connect(led)` (lines 50–68): drives the blue blinking pattern, runs the
poll loop, and on success turns the LED off and returns.  On timeout the
exception propagates before `led.off()` is reached, so the only LED action
on that path is the initial blue blink. -/
def connect (polls : Nat → Bool) : ConnectOutcome × List Event :=
  let entry : List Event := [.led (driveIndicator .ConnectingNetwork)]
  match connectLoop polls 0 0 with
  | (.Connected, _) => (.Connected, entry ++ [.led (driveIndicator .NetworkConnected)])
  | (.TimedOut, _) => (.TimedOut, entry)

/-! ## Sampling and reporting loop: `send_reading`, `run` (lines 71–96) -/

/-- The POST request that `send_reading(temperature, humidity, timestamp)`
builds (lines 72–73): `requests.post(url, headers={"Authorization": "..."})`.
The URL literal is the constant `f"https://..."` and no `data=`/body argument
is passed, so the request carries no body and none of the three parameters
occurs in it. -/
def send_reading_request (temperature humidity : Int) (timestamp : Nat) : HttpRequest :=
  { url := "https://...", authorization := true, body := none }

/-- Embedding of `send_reading` (lines 71–76): performs the POST; if the
POST raises (transport fault), the exception propagates (`.error`);
otherwise the function returns `status_code == 201`. -/
def send_reading (temperature humidity : Int) (timestamp : Nat)
    (post : PostOutcome) : Except String Bool :=
  match post with
  | .fault e => .error e
  | .status code => .ok (code == 201)

/-- The external world of one iteration of the `while True` loop in `run`:
the outcome of `sensor.measure()`, the outcome of the `requests.post` call
inside `send_reading`, and the value of `round(time())`. -/
structure Cycle where
  sensor : SensorOutcome
  post : PostOutcome
  now : Nat
deriving DecidableEq, Repr

/-- Status of the sampling loop when the modelled execution stops:
still looping with the current `failures` counter (the supplied cycle
environment was exhausted), halted via `break` after 3 consecutive
failures, or aborted by an uncaught exception. -/
inductive RunStatus where
  | running (failures : Nat)
  | halted
  | faulted (e : String)
deriving DecidableEq, Repr

/-- Result of (a finite portion of) the sampling loop: final status plus the
trace of observable events. -/
structure RunResult where
  status : RunStatus
  trace : List Event
deriving DecidableEq, Repr

/-- The `while True` loop of `run` (lines 83–96), one constructor case per
cycle.  Faithful to the source: `sensor.measure()` is unguarded, so a sensor
fault aborts the loop; `send_reading` raising likewise aborts; on a non-201
status the red blink is driven and `failures` incremented, breaking with
`led.red = 255` once `failures >= 3`; on a 201 status the green blink is
driven and `failures` reset to 0; then `sleep(30)` and repeat. -/
def runFrom (failures : Nat) : List Cycle → RunResult
  | [] => ⟨.running failures, []⟩
  | c :: rest =>
    match c.sensor with
    | .fault e => ⟨.faulted e, []⟩
    | .ok t h =>
      let req := send_reading_request t h c.now
      match send_reading t h c.now c.post with
      | .error e => ⟨.faulted e, [.sample t h, .transmit req]⟩
      | .ok succeeded =>
        if !succeeded then
          let failures' := failures + 1
          if failures' ≥ 3 then
            ⟨.halted, [.sample t h, .transmit req,
              .led (driveIndicator .ReportingFailed), .led (driveIndicator .Halted)]⟩
          else
            let r := runFrom failures' rest
            ⟨r.status, [.sample t h, .transmit req,
              .led (driveIndicator .ReportingFailed), .sleepSec 30] ++ r.trace⟩
        else
          let r := runFrom 0 rest
          ⟨r.status, [.sample t h, .transmit req,
            .led (driveIndicator .ReportingOk), .sleepSec 30] ++ r.trace⟩

/-- Embedding of `run(sensor, led)` (lines 79–96): first `ntptime.settime()`
(line 80), whose fault propagates uncaught; then `failures = 0` and the
unbounded loop. -/
def run (ntp : Except String Unit) (cycles : List Cycle) : RunResult :=
  match ntp with
  | .error e => ⟨.faulted e, []⟩
  | .ok _ =>
    let r := runFrom 0 cycles
    ⟨r.status, .ntpSync :: r.trace⟩

/-! ## Top level of the script (lines 99–119) -/

/-- The POST request the top-level `except` handler builds (lines 114–115):
`requests.post(DEBUG_URL, data=str(e), headers={"Authorization": "..."})`.
Its body is the fault's textual description.  (The literal `DEBUG_URL` in
the source is `"http//..."`.) -/
def errorReportRequest (e : String) : HttpRequest :=
  { url := "http//...", authorization := true, body := some e }

/-- The whole external environment of one execution of the script. -/
structure MainEnv where
  polls : Nat → Bool
  ntp : Except String Unit
  cycles : List Cycle
  errorPost : PostOutcome

/-- How one modelled execution of the script ends: `machine.reset()` after a
Wi-Fi timeout; still looping (cycle environment exhausted); loop halted and
the script ends; a fault from `run` reported to the debug endpoint, the
`UnexpectedFault` indicator driven and the fault re-raised (`raise`,
line 119); or the report POST itself raised, so a new uncaught exception
escapes before the indicator is set. -/
inductive MainOutcome where
  | reset
  | running (failures : Nat)
  | halted
  | faultReported (e : String)
  | reporterFaulted (e e2 : String)
deriving DecidableEq, Repr

/-- The module-level script (lines 99–119): blink white, `sleep(4)`, then
`connect` guarded by `except WiFiConnectionTimeout: machine.reset()`, then
`run` guarded by the catch-all handler that POSTs the fault's description to
`DEBUG_URL`, sets `indicator.blue = 255` and re-raises.  The handler's own
POST is unguarded, so its fault propagates instead. -/
def main (env : MainEnv) : MainOutcome × List Event :=
  let startup : List Event := [.led (driveIndicator .Starting), .sleepSec 4]
  match connect env.polls with
  | (.TimedOut, tr) => (.reset, startup ++ tr ++ [.resetDevice])
  | (.Connected, tr) =>
    let r := run env.ntp env.cycles
    match r.status with
    | .running f => (.running f, startup ++ tr ++ r.trace)
    | .halted => (.halted, startup ++ tr ++ r.trace)
    | .faulted e =>
      let req := errorReportRequest e
      match env.errorPost with
      | .fault e2 =>
        (.reporterFaulted e e2, startup ++ tr ++ r.trace ++ [.transmit req])
      | .status _ =>
        (.faultReported e, startup ++ tr ++ r.trace ++
          [.transmit req, .led (driveIndicator .UnexpectedFault)])

/-! ## Spec-side indicator table (for the refinement claim about §4.3) -/

/-- Colour names as the spec's indicator table uses them. -/
inductive SpecColor where
  | white
  | blue
  | green
  | red
deriving DecidableEq, Repr

/-- Indicator modes as the spec's indicator table uses them. -/
inductive SpecMode where
  | blinking
  | solid
  | off
deriving DecidableEq, Repr

/-- The colour name of an RGB value: white when all three channels are lit,
otherwise the single lit channel, `none` for all-dark. -/
def colorName (c : RGB) : Option SpecColor :=
  if c.r > 0 ∧ c.g > 0 ∧ c.b > 0 then some .white
  else if c.r > 0 then some .red
  else if c.g > 0 then some .green
  else if c.b > 0 then some .blue
  else none

/-- Abstraction of a concrete LED action to the spec table's vocabulary:
the colour shown and whether it blinks, is solid, or is off. -/
def abstractLed : LedAction → Option SpecColor × SpecMode
  | .blink onColor _ => (colorName onColor, .blinking)
  | .solid c => (colorName c, .solid)
  | .off => (none, .off)

/-- Modelled from the spec: the required indicator mapping of §4.3, read
directly off the spec's table — Starting: white blinking; ConnectingNetwork:
blue blinking; NetworkConnected: off; ReportingOk: green blinking;
ReportingFailed: red blinking; Halted: red solid; UnexpectedFault: blue
solid. -/
def specIndicatorTable : DeviceState → Option SpecColor × SpecMode
  | .Starting => (some .white, .blinking)
  | .ConnectingNetwork => (some .blue, .blinking)
  | .NetworkConnected => (none, .off)
  | .ReportingOk => (some .green, .blinking)
  | .ReportingFailed => (some .red, .blinking)
  | .Halted => (some .red, .solid)
  | .UnexpectedFault => (some .blue, .solid)

/-! ## Helpers for the consecutive-failure-count analysis -/

/-- Whether a cycle's transmit attempt counts as a failure in the loop's
accounting: the response's status code is not 201.  (A transport fault
never reaches the accounting — it aborts the loop — but we let it count as
`true` so the abstraction is total.) -/
def cycleFails (c : Cycle) : Bool :=
  match c.post with
  | .status code => code != 201
  | .fault _ => true

/-- Whether a list of per-cycle failure flags contains a contiguous run of
three failures: some tail of the list starts with `true, true, true`.
A run of 3 or more consecutive failures contains such a tail, and
conversely. -/
def hasRun3 (l : List Bool) : Bool :=
  l.tails.any fun t => t.take 3 == [true, true, true]

/-- Length of the leading run of `true` flags. -/
def leadRun : List Bool → Nat
  | true :: rest => leadRun rest + 1
  | _ => 0

/-- The consecutive-failure counter after the loop consumes the given
failure flags starting from `f`: incremented on failure, reset to zero on
success — the mirror of lines 88 and 94 of the script. -/
def finalFails (f : Nat) : List Bool → Nat
  | [] => f
  | b :: rest => if b then finalFails (f + 1) rest else finalFails 0 rest

/-- Whether the consecutive-failure counter, starting from `f`, stays below
the threshold 3 at every step while consuming the given failure flags. -/
def safeFrom (f : Nat) : List Bool → Bool
  | [] => true
  | b :: rest => if b then decide (f + 1 < 3) && safeFrom (f + 1) rest else safeFrom 0 rest

/-! ## Helper lemmas -/

lemma take3_eq_iff (l : List Bool) :
    l.take 3 = [true, true, true] ↔ ∃ r, l = true :: true :: true :: r := by
  match l with
  | [] => simp
  | [b1] => simp
  | [b1, b2] => simp
  | b1 :: b2 :: b3 :: r =>
    constructor
    · intro h
      simp [List.take] at h
      exact ⟨r, by simp [h.1, h.2.1, h.2.2]⟩
    · rintro ⟨r', hr⟩
      simp only [List.cons.injEq] at hr
      simp [List.take, hr.1, hr.2.1, hr.2.2.1]

lemma hasRun3_cons (b : Bool) (l : List Bool) :
    hasRun3 (b :: l) = ((((b :: l).take 3) == [true, true, true]) || hasRun3 l) := by
  rw [hasRun3, hasRun3, show (b :: l).tails = (b :: l) :: l.tails from rfl, List.any_cons]

lemma hasRun3_of_lead (l : List Bool) (h : 3 ≤ leadRun l) : hasRun3 l = true := by
  have : ∃ r, l = true :: true :: true :: r := by
    match l with
    | [] => simp [leadRun] at h
    | [b1] => cases b1 <;> simp [leadRun] at h
    | [b1, b2] => cases b1 <;> cases b2 <;> simp [leadRun] at h
    | b1 :: b2 :: b3 :: r =>
      cases b1 <;> cases b2 <;> cases b3 <;> simp [leadRun] at h <;> exact ⟨r, rfl⟩
  obtain ⟨r, hr⟩ := this
  subst hr
  rw [hasRun3_cons]
  simp

lemma leadRun_lt_of_no3 (l : List Bool) (h : hasRun3 l = false) : leadRun l < 3 := by
  by_contra hle
  rw [hasRun3_of_lead l (by omega)] at h
  simp at h

lemma hasRun3_cons_false (b : Bool) (l : List Bool) (h : hasRun3 (b :: l) = false) :
    hasRun3 l = false := by
  rw [hasRun3_cons] at h
  exact (Bool.or_eq_false_iff.mp h).2

lemma safeFrom_of_no3 (l : List Bool) : ∀ f, hasRun3 l = false → f + leadRun l < 3 →
    safeFrom f l = true := by
  induction l with
  | nil => intro f _ _; simp [safeFrom]
  | cons b rest ih =>
    intro f h3 hlt
    have h3' : hasRun3 rest = false := hasRun3_cons_false b rest h3
    cases b with
    | false =>
      have : leadRun rest < 3 := leadRun_lt_of_no3 rest h3'
      simpa [safeFrom] using ih 0 h3' (by omega)
    | true =>
      have hl : leadRun (true :: rest) = leadRun rest + 1 := by simp [leadRun]
      rw [hl] at hlt
      have := ih (f + 1) h3' (by omega)
      simp [safeFrom, this]
      omega

lemma hasRun3_append_left (a b : List Bool) (h : hasRun3 (a ++ b) = false) :
    hasRun3 a = false := by
  induction a with
  | nil => simp [hasRun3]
  | cons x a' ih =>
    rw [List.cons_append, hasRun3_cons] at h
    obtain ⟨h1, h2⟩ := Bool.or_eq_false_iff.mp h
    rw [hasRun3_cons]
    refine Bool.or_eq_false_iff.mpr ⟨?_, ih h2⟩
    rw [beq_eq_false_iff_ne] at h1 ⊢
    intro hx
    obtain ⟨r, hr⟩ := (take3_eq_iff _).mp hx
    apply h1
    apply (take3_eq_iff _).mpr
    rcases hr with hr
    have : x :: a' ++ b = true :: true :: true :: (r ++ b) := by
      rw [show x :: a' = true :: true :: true :: r from hr]
      simp
    exact ⟨r ++ b, by simpa using this⟩

lemma runFrom_running (l : List Cycle) :
    ∀ f, (∀ c ∈ l, c.sensor.isOk = true ∧ c.post.isStatus = true) → f < 3 →
    safeFrom f (l.map cycleFails) = true →
    (runFrom f l).status = .running (finalFails f (l.map cycleFails)) ∧
      finalFails f (l.map cycleFails) < 3 := by
  induction l with
  | nil => intro f _ hf _; exact ⟨rfl, by simpa [finalFails] using hf⟩
  | cons c rest ih =>
    intro f hok hf hsafe
    obtain ⟨hs, hp⟩ := hok c (List.mem_cons_self c rest)
    have hok' : ∀ c' ∈ rest, c'.sensor.isOk = true ∧ c'.post.isStatus = true :=
      fun c' hc' => hok c' (List.mem_cons_of_mem c hc')
    match hsc : c.sensor with
    | .fault e => rw [hsc] at hs; simp [SensorOutcome.isOk] at hs
    | .ok t h =>
      match hpc : c.post with
      | .fault e => rw [hpc] at hp; simp [PostOutcome.isStatus] at hp
      | .status code =>
        have hmap : (c :: rest).map cycleFails = (code != 201) :: rest.map cycleFails := by
          simp [cycleFails, hpc]
        rw [hmap]
        rw [hmap] at hsafe
        by_cases hcode : code = 201
        · have hfl : (code != 201) = false := by simp [hcode]
          rw [hfl] at hsafe ⊢
          simp only [safeFrom, Bool.false_eq_true, if_false] at hsafe
          have hrec := ih 0 hok' (by omega) hsafe
          simp only [finalFails, Bool.false_eq_true, if_false]
          refine ⟨?_, hrec.2⟩
          simp only [runFrom, hsc, send_reading, hpc, hcode, beq_self_eq_true, Bool.not_true,
            Bool.false_eq_true, if_false]
          exact hrec.1
        · have hfl : (code != 201) = true := by simp [hcode]
          rw [hfl] at hsafe ⊢
          simp only [safeFrom, if_true, Bool.and_eq_true, decide_eq_true_eq] at hsafe
          obtain ⟨hf1, hs1⟩ := hsafe
          have hrec := ih (f + 1) hok' (by omega) hs1
          simp only [finalFails, if_true]
          refine ⟨?_, hrec.2⟩
          have hne : (code == 201) = false := by simp [hcode]
          have h3 : ¬ (f + 1 ≥ 3) := by omega
          simp only [runFrom, hsc, send_reading, hpc, hne, Bool.not_false, if_true, if_neg h3]
          exact hrec.1

lemma connectLoop_success (polls : Nat → Bool) :
    ∀ (k i a : Nat), a + k ≤ 10 → (∀ d, d < k → polls (i + d) = false) →
    polls (i + k) = true → connectLoop polls i a = (.Connected, a + k) := by
  intro k
  induction k with
  | zero =>
    intro i a _ _ htrue
    rw [connectLoop]
    have h0 : polls i = true := by simpa using htrue
    rw [h0]
    simp
  | succ k ih =>
    intro i a hle hfalse htrue
    rw [connectLoop]
    have h0 : polls i = false := by simpa using hfalse 0 (by omega)
    rw [h0]
    have hnot : ¬ (a + 1 > 10) := by omega
    simp only [Bool.false_eq_true, if_false, if_neg hnot]
    have := ih (i + 1) (a + 1) (by omega)
      (fun d hd => by simpa [Nat.add_assoc, Nat.add_comm 1 d] using hfalse (d + 1) (by omega))
      (by simpa [Nat.add_assoc, Nat.add_comm 1 k] using htrue)
    rw [this]
    congr 1
    omega

lemma connectLoop_timeout (polls : Nat → Bool) :
    ∀ (k i a : Nat), a + k = 10 → (∀ d, d < k + 1 → polls (i + d) = false) →
    connectLoop polls i a = (.TimedOut, 11) := by
  intro k
  induction k with
  | zero =>
    intro i a ha hfalse
    rw [connectLoop]
    have h0 : polls i = false := by simpa using hfalse 0 (by omega)
    rw [h0]
    have hgt : a + 1 > 10 := by omega
    simp only [Bool.false_eq_true, if_false, if_pos hgt]
    congr 1
    omega
  | succ k ih =>
    intro i a ha hfalse
    rw [connectLoop]
    have h0 : polls i = false := by simpa using hfalse 0 (by omega)
    rw [h0]
    have hnot : ¬ (a + 1 > 10) := by omega
    simp only [Bool.false_eq_true, if_false, if_neg hnot]
    exact ih (i + 1) (a + 1) (by omega)
      (fun d hd => by simpa [Nat.add_assoc, Nat.add_comm 1 d] using hfalse (d + 1) (by omega))

lemma transmit_body_none (l : List Cycle) :
    ∀ f req, Event.transmit req ∈ (runFrom f l).trace → req.body = none := by
  induction l with
  | nil => intro f req h; simp [runFrom] at h
  | cons c rest ih =>
    intro f req h
    match hsc : c.sensor with
    | .fault e =>
      simp [runFrom, hsc] at h
    | .ok t hum =>
      match hpc : c.post with
      | .fault e =>
        simp [runFrom, hsc, hpc, send_reading] at h
        subst h
        rfl
      | .status code =>
        by_cases hcode : code = 201
        · simp [runFrom, hsc, hpc, send_reading, hcode] at h
          rcases h with rfl | h
          · rfl
          · exact ih _ _ h
        · have hne : (code == 201) = false := by simp [hcode]
          by_cases h3 : f + 1 ≥ 3
          · simp [runFrom, hsc, hpc, send_reading, hne, h3] at h
            subst h
            rfl
          · simp [runFrom, hsc, hpc, send_reading, hne, h3] at h
            rcases h with rfl | h
            · rfl
            · exact ih _ _ h

/-! ## Claim theorems -/

/-- C1: the claim says every transmit attempt's POST carries the acquired
reading's temperature, humidity and timestamp in its body.  In the code,
`send_reading` calls `requests.post(url, headers=...)` with no body
argument and a constant URL: the request is the same for every reading,
carries no body at all, and every transmit event the sampling loop ever
emits has an empty body. -/
theorem C1_transmit_carries_no_reading_body (t hum : Int) (ts : Nat) (f : Nat)
    (l : List Cycle) (req : HttpRequest)
    (hmem : Event.transmit req ∈ (runFrom f l).trace) :
    (send_reading_request t hum ts).body = none ∧
    send_reading_request t hum ts = send_reading_request 0 0 0 ∧
    req.body = none :=
  ⟨rfl, rfl, transmit_body_none l f req hmem⟩

/-- Witness for C1: the request of a concrete transmit in a concrete run
has no body, and the request built for the reading (20, 50, 7) is the
constant request. -/
theorem C1_witness :
    Event.transmit (send_reading_request 20 50 7) ∈
      (runFrom 0 [⟨.ok 20 50, .status 201, 7⟩]).trace ∧
    ((send_reading_request 20 50 7).body = none ∧
      send_reading_request 20 50 7 = send_reading_request 0 0 0 ∧
      (send_reading_request 20 50 7).body = none) :=
  ⟨by decide, C1_transmit_carries_no_reading_body 20 50 7 0
    [⟨.ok 20 50, .status 201, 7⟩] (send_reading_request 20 50 7) (by decide)⟩

/-- C2 counterexample: in the cycle whose sensor acquisition faults, the
loop neither increments the failure count nor drives the failure
indicator nor proceeds: `sensor.measure()` is unguarded, so the whole run
aborts with the sensor fault and an empty cycle trace. -/
theorem C2_counterexample :
    (runFrom 0 [⟨.fault "sensor read failed", .status 201, 0⟩]).status
        = .faulted "sensor read failed" ∧
    (runFrom 0 [⟨.fault "sensor read failed", .status 201, 0⟩]).trace = [] :=
  ⟨rfl, rfl⟩

/-- C2 (amended): a sensor acquisition fault is not accounted as a transmit
failure — it propagates out of `run` uncaught (no count change, no
indicator action, no further cycles) and reaches the top-level handler,
which reports it as an unexpected fault. -/
theorem C2_sensor_fault_propagates (e : String) (p : PostOutcome) (n f c2 : Nat)
    (rest : List Cycle) :
    runFrom f (⟨.fault e, p, n⟩ :: rest) = ⟨.faulted e, []⟩ ∧
    (run (.ok ()) (⟨.fault e, p, n⟩ :: rest)).status = .faulted e ∧
    (main ⟨fun _ => true, .ok (), ⟨.fault e, p, n⟩ :: rest, .status c2⟩).1
        = .faultReported e := by
  refine ⟨rfl, rfl, ?_⟩
  simp [main, connect, connectLoop, run, runFrom]

/-- C7 counterexample: a 500 status is counted as a transmit failure (the
loop continues with the counter at 1), but a transport-level fault is not
treated identically: it aborts the loop as an uncaught exception. -/
theorem C7_counterexample :
    (runFrom 0 [⟨.ok 20 50, .status 500, 0⟩]).status = .running 1 ∧
    (runFrom 0 [⟨.ok 20 50, .fault "connection refused", 0⟩]).status
        = .faulted "connection refused" :=
  ⟨rfl, rfl⟩

/-- C7 (amended): a transmit attempt succeeds iff the endpoint returns
status 201, and every other status code is counted as a transmit failure;
but a transport-level fault is not counted as a failure — it raises out of
`send_reading` and aborts the sampling loop toward the top-level handler. -/
theorem C7_success_iff_created (t hum : Int) (ts n : Nat) (code : Nat) (e : String)
    (f : Nat) (rest : List Cycle) :
    send_reading t hum ts (.status code) = .ok (code == 201) ∧
    send_reading t hum ts (.fault e) = .error e ∧
    (runFrom f (⟨.ok t hum, .status code, n⟩ :: rest)).status =
      (if code == 201 then (runFrom 0 rest).status
       else if f + 1 ≥ 3 then .halted else (runFrom (f + 1) rest).status) ∧
    (runFrom f (⟨.ok t hum, .fault e, n⟩ :: rest)).status = .faulted e := by
  refine ⟨rfl, rfl, ?_, rfl⟩
  by_cases hcode : code = 201
  · simp [runFrom, send_reading, hcode]
  · have hne : (code == 201) = false := by simp [hcode]
    by_cases h3 : f + 1 ≥ 3
    · simp [runFrom, send_reading, hne, h3]
    · simp [runFrom, send_reading, hne, h3]

/-- C8: the LED action the script drives for each device state, abstracted
to its (colour, mode) pattern, reproduces the spec's indicator table
exactly; the mapping is a pure table lookup, so the pattern driven on
entering a state is independent of history. -/
theorem C8_indicator_table (s : DeviceState) :
    abstractLed (driveIndicator s) = specIndicatorTable s := by
  cases s <;> rfl

/-- C4: with three consecutive transmit failures from the start of the run
(sensor fine, all statuses non-201), the loop halts immediately after the
third failure — whatever further cycles the environment would offer: the
last LED action is the permanent solid-red `Halted` pattern and exactly 3
samplings and 3 transmissions occur, none afterward. -/
theorem C4_halts_after_three_failures (t1 h1 t2 h2 t3 h3 : Int)
    (n1 n2 n3 c1 c2 c3 : Nat)
    (hc1 : c1 ≠ 201) (hc2 : c2 ≠ 201) (hc3 : c3 ≠ 201) (rest : List Cycle) :
    ∃ tr, runFrom 0 (⟨.ok t1 h1, .status c1, n1⟩ :: ⟨.ok t2 h2, .status c2, n2⟩ ::
        ⟨.ok t3 h3, .status c3, n3⟩ :: rest) = ⟨.halted, tr⟩ ∧
      lastLedAction tr = some (driveIndicator .Halted) ∧
      tr.countP Event.isSample = 3 ∧
      tr.countP Event.isTransmit = 3 := by
  have hne1 : (c1 == 201) = false := by simp [hc1]
  have hne2 : (c2 == 201) = false := by simp [hc2]
  have hne3 : (c3 == 201) = false := by simp [hc3]
  have hrun : runFrom 0 (⟨.ok t1 h1, .status c1, n1⟩ :: ⟨.ok t2 h2, .status c2, n2⟩ ::
      ⟨.ok t3 h3, .status c3, n3⟩ :: rest) = ⟨.halted,
        [.sample t1 h1, .transmit (send_reading_request t1 h1 n1),
         .led (driveIndicator .ReportingFailed), .sleepSec 30,
         .sample t2 h2, .transmit (send_reading_request t2 h2 n2),
         .led (driveIndicator .ReportingFailed), .sleepSec 30,
         .sample t3 h3, .transmit (send_reading_request t3 h3 n3),
         .led (driveIndicator .ReportingFailed), .led (driveIndicator .Halted)]⟩ := by
    simp [runFrom, send_reading, hne1, hne2, hne3]
  refine ⟨_, hrun, ?_, ?_, ?_⟩
  · simp [lastLedAction]
  · simp [List.countP, List.countP.go, Event.isSample]
  · simp [List.countP, List.countP.go, Event.isTransmit]

/-- Witness for C4: the concrete run 500, 500, 500 halts with solid red
after exactly three samples and transmissions. -/
theorem C4_witness :
    (runFrom 0 [⟨.ok 20 50, .status 500, 1⟩, ⟨.ok 21 51, .status 500, 2⟩,
        ⟨.ok 22 52, .status 500, 3⟩]).status = .halted ∧
    lastLedAction (runFrom 0 [⟨.ok 20 50, .status 500, 1⟩, ⟨.ok 21 51, .status 500, 2⟩,
        ⟨.ok 22 52, .status 500, 3⟩]).trace = some (driveIndicator .Halted) ∧
    ((runFrom 0 [⟨.ok 20 50, .status 500, 1⟩, ⟨.ok 21 51, .status 500, 2⟩,
        ⟨.ok 22 52, .status 500, 3⟩]).trace.countP Event.isSample = 3) ∧
    ((runFrom 0 [⟨.ok 20 50, .status 500, 1⟩, ⟨.ok 21 51, .status 500, 2⟩,
        ⟨.ok 22 52, .status 500, 3⟩]).trace.countP Event.isTransmit = 3) := by
  obtain ⟨tr, h1, h2, h3, h4⟩ := C4_halts_after_three_failures 20 50 21 51 22 52 1 2 3
    500 500 500 (by decide) (by decide) (by decide) []
  rw [h1]
  exact ⟨rfl, h2, h3, h4⟩

/-- C5: if no contiguous run of 3 failures occurs among the cycles (sensor
fine, every transmit answered with some status), then after every cycle the
loop is still running with ConsecutiveFailureCount < 3; and the counter is
reset to 0 by a success and incremented by a failure. -/
theorem C5_count_invariant (l : List Cycle)
    (hok : ∀ c ∈ l, c.sensor.isOk = true ∧ c.post.isStatus = true)
    (hno3 : hasRun3 (l.map cycleFails) = false) :
    (∀ p q, l = p ++ q →
      (runFrom 0 p).status = .running (finalFails 0 (p.map cycleFails)) ∧
      finalFails 0 (p.map cycleFails) < 3) ∧
    (∀ f t hum ts code, f + 1 < 3 →
      (runFrom f [⟨.ok t hum, .status code, ts⟩]).status =
        .running (if code == 201 then 0 else f + 1)) := by
  constructor
  · intro p q hpq
    subst hpq
    have hokp : ∀ c ∈ p, c.sensor.isOk = true ∧ c.post.isStatus = true :=
      fun c hc => hok c (List.mem_append_left q hc)
    have hno3p : hasRun3 (p.map cycleFails) = false := by
      rw [List.map_append] at hno3
      exact hasRun3_append_left _ _ hno3
    have hsafe := safeFrom_of_no3 (p.map cycleFails) 0 hno3p (by
      have := leadRun_lt_of_no3 _ hno3p
      omega)
    exact runFrom_running p 0 hokp (by omega) hsafe
  · intro f t hum ts code hf
    by_cases hcode : code = 201
    · simp [runFrom, send_reading, hcode]
    · have hne : (code == 201) = false := by simp [hcode]
      have h3 : ¬ (f + 1 ≥ 3) := by omega
      simp [runFrom, send_reading, hne, h3]

/-- Witness for C5: the failure/success run 500, 201, 500 never halts and
ends with the counter at 1. -/
theorem C5_witness :
    (runFrom 0 [⟨.ok 20 50, .status 500, 1⟩, ⟨.ok 20 50, .status 201, 2⟩,
        ⟨.ok 20 50, .status 500, 3⟩]).status =
      .running (finalFails 0 ([⟨.ok 20 50, .status 500, 1⟩, ⟨.ok 20 50, .status 201, 2⟩,
        ⟨.ok 20 50, .status 500, 3⟩].map cycleFails)) ∧
    finalFails 0 ([⟨.ok 20 50, .status 500, 1⟩, ⟨.ok 20 50, .status 201, 2⟩,
        ⟨.ok 20 50, .status 500, 3⟩].map cycleFails) < 3 :=
  (C5_count_invariant [⟨.ok 20 50, .status 500, 1⟩, ⟨.ok 20 50, .status 201, 2⟩,
      ⟨.ok 20 50, .status 500, 3⟩] (by decide) (by decide)).1
    [⟨.ok 20 50, .status 500, 1⟩, ⟨.ok 20 50, .status 201, 2⟩,
      ⟨.ok 20 50, .status 500, 3⟩] [] (by simp)

/-- C6: with at most 10 failed polls followed by a successful one,
`connect` returns `Connected` and the indicator ends off; with 11
consecutive failed polls it raises the timeout after the 11th unsuccessful
poll (`attempts` = 11) and the sole outcome is `TimedOut` — no `Connected`
result is produced. -/
theorem C6_connect_bounded_retry (polls : Nat → Bool) :
    (∀ k, k ≤ 10 → (∀ d, d < k → polls d = false) → polls k = true →
      connectLoop polls 0 0 = (.Connected, k) ∧
      connect polls = (.Connected, [.led (driveIndicator .ConnectingNetwork),
        .led (driveIndicator .NetworkConnected)]) ∧
      lastLedAction (connect polls).2 = some LedAction.off) ∧
    ((∀ d, d < 11 → polls d = false) →
      connectLoop polls 0 0 = (.TimedOut, 11) ∧
      connect polls = (.TimedOut, [.led (driveIndicator .ConnectingNetwork)])) := by
  constructor
  · intro k hk hfalse htrue
    have hcl : connectLoop polls 0 0 = (.Connected, k) := by
      have := connectLoop_success polls k 0 0 (by omega)
        (fun d hd => by simpa using hfalse d hd) (by simpa using htrue)
      simpa using this
    refine ⟨hcl, by simp [connect, hcl], ?_⟩
    simp [connect, hcl, lastLedAction, driveIndicator]
  · intro hfalse
    have hcl : connectLoop polls 0 0 = (.TimedOut, 11) := by
      exact connectLoop_timeout polls 10 0 0 (by omega)
        (fun d hd => by simpa using hfalse d (by omega))
    exact ⟨hcl, by simp [connect, hcl]⟩

/-- Witness for C6: a link that comes up at the 4th poll connects with the
LED ending off; a link that never comes up times out with `attempts` 11. -/
theorem C6_witness :
    (connectLoop (fun i => decide (i = 3)) 0 0 = (.Connected, 3) ∧
      connect (fun i => decide (i = 3)) = (.Connected,
        [.led (driveIndicator .ConnectingNetwork),
         .led (driveIndicator .NetworkConnected)]) ∧
      lastLedAction (connect (fun i => decide (i = 3))).2 = some LedAction.off) ∧
    (connectLoop (fun _ => false) 0 0 = (.TimedOut, 11) ∧
      connect (fun _ => false) = (.TimedOut, [.led (driveIndicator .ConnectingNetwork)])) :=
  ⟨(C6_connect_bounded_retry (fun i => decide (i = 3))).1 3 (by decide)
      (by decide) (by decide),
   (C6_connect_bounded_retry (fun _ => false)).2 (by decide)⟩

/-- C9: on the timeout path `connect` drives no LED action after the
initial blue blink (no `led.off()`, no failure pattern), and the top level
resets the device with the indicator still showing the blue blinking
pattern. -/
theorem C9_timeout_leaves_blue_blinking (polls : Nat → Bool)
    (ntp : Except String Unit) (cycles : List Cycle) (errorPost : PostOutcome)
    (hfalse : ∀ d, d < 11 → polls d = false) :
    (connect polls).2 = [.led (driveIndicator .ConnectingNetwork)] ∧
    lastLedAction (connect polls).2 = some (driveIndicator .ConnectingNetwork) ∧
    (main ⟨polls, ntp, cycles, errorPost⟩).1 = .reset ∧
    (main ⟨polls, ntp, cycles, errorPost⟩).2 =
      [.led (driveIndicator .Starting), .sleepSec 4,
       .led (driveIndicator .ConnectingNetwork), .resetDevice] ∧
    lastLedAction (main ⟨polls, ntp, cycles, errorPost⟩).2 =
      some (driveIndicator .ConnectingNetwork) := by
  have hcl : connectLoop polls 0 0 = (.TimedOut, 11) := by
    exact connectLoop_timeout polls 10 0 0 (by omega)
      (fun d hd => by simpa using hfalse d (by omega))
  refine ⟨by simp [connect, hcl], by simp [connect, hcl, lastLedAction], ?_, ?_, ?_⟩
  · simp [main, connect, hcl]
  · simp [main, connect, hcl]
  · simp [main, connect, hcl, lastLedAction, driveIndicator]

/-- Witness for C9: with a link that never comes up, the device resets with
the blue blinking pattern still driven. -/
theorem C9_witness :
    (connect (fun _ => false)).2 = [.led (driveIndicator .ConnectingNetwork)] ∧
    lastLedAction (connect (fun _ => false)).2 =
      some (driveIndicator .ConnectingNetwork) ∧
    (main ⟨fun _ => false, .ok (), [], .status 200⟩).1 = .reset ∧
    (main ⟨fun _ => false, .ok (), [], .status 200⟩).2 =
      [.led (driveIndicator .Starting), .sleepSec 4,
       .led (driveIndicator .ConnectingNetwork), .resetDevice] ∧
    lastLedAction (main ⟨fun _ => false, .ok (), [], .status 200⟩).2 =
      some (driveIndicator .ConnectingNetwork) :=
  C9_timeout_leaves_blue_blinking (fun _ => false) (.ok ()) [] (.status 200) (by decide)

/-- C10: every run begins with the NTP synchronization (it is the first
event, before any sampling); if it faults, the run produces no sampling and
no transmission at all, and the fault reaches the top-level handler as an
unexpected fault (reported, or aborting via the reporter's own fault). -/
theorem C10_ntp_first (cycles : List Cycle) (e e2 : String) (c : Nat) :
    (run (.ok ()) cycles).trace.head? = some .ntpSync ∧
    run (.error e) cycles = ⟨.faulted e, []⟩ ∧
    (run (.error e) cycles).trace.countP Event.isSample = 0 ∧
    (run (.error e) cycles).trace.countP Event.isTransmit = 0 ∧
    (main ⟨fun _ => true, .error e, cycles, .status c⟩).1 = .faultReported e ∧
    (main ⟨fun _ => true, .error e, cycles, .fault e2⟩).1 = .reporterFaulted e e2 := by
  refine ⟨rfl, rfl, rfl, rfl, ?_, ?_⟩
  · simp [main, connect, connectLoop, run]
  · simp [main, connect, connectLoop, run]

/-- C3 counterexample: a fault escapes the loop (NTP fault) and the error
report POST itself fails — the reporter raises a new fault of its own
(the failure is not swallowed) and the `UnexpectedFault` indicator is never
driven. -/
theorem C3_counterexample :
    (main ⟨fun _ => true, .error "ntp failed", [], .fault "connection refused"⟩).1
        = .reporterFaulted "ntp failed" "connection refused" ∧
    lastLedAction (main ⟨fun _ => true, .error "ntp failed", [],
        .fault "connection refused"⟩).2 ≠ some (driveIndicator .UnexpectedFault) := by
  constructor
  · simp [main, connect, connectLoop, run]
  · simp [main, connect, connectLoop, run, lastLedAction, driveIndicator]

/-- C3 (amended): for every fault that escapes the sampling loop, exactly
one POST of the fault's description to the error-log endpoint is attempted;
but the reporter is not throw-free: if that POST itself fails, the new
fault propagates unswallowed and the `UnexpectedFault` indicator is never
driven; if the POST returns (any status), the indicator is driven and the
original fault is re-raised. -/
theorem C3_reporter_can_throw (ntp : Except String Unit) (cycles : List Cycle)
    (e : String) (hf : (run ntp cycles).status = .faulted e) :
    (∀ e2, (main ⟨fun _ => true, ntp, cycles, .fault e2⟩).1 = .reporterFaulted e e2 ∧
      (main ⟨fun _ => true, ntp, cycles, .fault e2⟩).2 =
        [.led (driveIndicator .Starting), .sleepSec 4,
         .led (driveIndicator .ConnectingNetwork), .led (driveIndicator .NetworkConnected)] ++
        (run ntp cycles).trace ++ [.transmit (errorReportRequest e)]) ∧
    (∀ c, (main ⟨fun _ => true, ntp, cycles, .status c⟩).1 = .faultReported e ∧
      (main ⟨fun _ => true, ntp, cycles, .status c⟩).2 =
        [.led (driveIndicator .Starting), .sleepSec 4,
         .led (driveIndicator .ConnectingNetwork), .led (driveIndicator .NetworkConnected)] ++
        (run ntp cycles).trace ++
        [.transmit (errorReportRequest e), .led (driveIndicator .UnexpectedFault)]) := by
  constructor
  · intro e2
    constructor <;> simp [main, connect, connectLoop, hf]
  · intro c
    constructor <;> simp [main, connect, connectLoop, hf]

/-- Witness for C3 (amended): a concrete NTP fault is reported once; with a
failing report POST the execution ends in `reporterFaulted`. -/
theorem C3_witness :
    (run (.error "ntp failed") [] : RunResult).status = .faulted "ntp failed" ∧
    (main ⟨fun _ => true, .error "ntp failed", [], .fault "refused"⟩).1
        = .reporterFaulted "ntp failed" "refused" ∧
    (main ⟨fun _ => true, .error "ntp failed", [], .status 200⟩).1
        = .faultReported "ntp failed" := by
  refine ⟨rfl, ?_, ?_⟩
  · exact ((C3_reporter_can_throw (.error "ntp failed") [] "ntp failed" rfl).1 "refused").1
  · exact ((C3_reporter_can_throw (.error "ntp failed") [] "ntp failed" rfl).2 200).1

end IotReader
